import Mathlib

/-
Verification of the Mazda per-cycle command-synthesis engine
(selfdrive/car/mazda/carcontroller.py, CarController.update) against its
natural-language specification.

The controller is embedded as a pure step function
`update : Flags → SteerParams → SteerParams → CState → Inputs → CState × Outputs`;
the mutable object state (steer rate-limit memory, debounce counter, frame
counter, the four ControlsTimers, the first-order filter, and the shared
CEFramesCounter key) becomes the explicit `CState` record.  Timers are modelled
as elapsed tick counters advanced once per cycle by `tickTimers`, mirroring the
single global `Timer.tick()` at the end of `update`; one tick is DT_CTRL = 10 ms,
so Timer(6.0) is 600 ticks, Timer(0.5) is 50 ticks, Timer(0.07) is 7 ticks.
Floats are embedded as rationals; Python `int(...)` is truncation toward zero
(`pyInt`) and Python `round` is `pyRound`.
-/

namespace MazdaCC

/-- Vehicle-generation and hardware flags resolved at controller construction
(the `self.CP.flags` checks for `MazdaFlags.GEN1`, `MazdaFlags.TORQUE_INTERCEPTOR`
and `MazdaFlags.RADAR_INTERCEPTOR` in carcontroller.py). -/
structure Flags where
  gen1 : Bool
  torqueInterceptor : Bool
  radarInterceptor : Bool
deriving DecidableEq

/-- Modelled from the spec: the steering-limiter parameter set (`CarControllerParams`
in values.py is outside src/).  Per §4.2/§6 of the spec: a maximum magnitude, a
maximum rate-of-change, and driver-override threshold/factor; one independent set
for the standard path and one for the auxiliary (torque-interceptor) path. -/
structure SteerParams where
  steerMax : Int
  steerDeltaMax : Int
  overrideThreshold : Int
  driverFactor : Int
deriving DecidableEq

/-- The read-only per-cycle inputs: planner intent (`CC`), vehicle-state snapshot
(`CS`), and the key-value-store reads done inside `update`
(BlendedACC, ExperimentalLongitudinalEnabled, CEStatus). -/
structure Inputs where
  latActive : Bool
  longActive : Bool
  steer : ℚ
  accel : ℚ
  cancel : Bool
  resumeBtn : Bool
  overrideActive : Bool
  gasPressed : Bool
  brakePressed : Bool
  standstill : Bool
  steeringTorque : Int
  longCtrlStarting : Bool
  accResume : Bool
  accAccelCmd : ℚ
  crzAccelCmd : ℚ
  ti_lkas_allowed : Bool
  blendedACC : Bool
  experimentalLong : Bool
  ceStatus : Bool
  ldwAlert : Bool
  steerRequiredAlert : Bool
  lkas_allowed_speed : Bool
deriving DecidableEq

/-- State of the first-order low-pass filter (`self.acc_filter`). -/
structure FilterState where
  alpha : ℚ
  x : ℚ
  initialized : Bool
deriving DecidableEq

/-- The controller's persistent state: the fields mutated by `__init__`/`update`,
the four ControlsTimers as elapsed tick counts, and the process-shared
`CEFramesCounter` key (written only by this controller in the modelled runs). -/
structure CState where
  apply_steer_last : Int
  ti_apply_steer_last : Int
  brake_counter : Nat
  frame : Nat
  hold_elapsed : Nat
  hold_delay_elapsed : Nat
  resume_elapsed : Nat
  cancel_delay_elapsed : Nat
  acc_filter : FilterState
  filtered_acc_last : ℚ
  ceFramesCounter : Nat
deriving DecidableEq

/-- One outgoing command frame, tagged with its payload as handed to the
protocol encoder (mazdacan.*); wire encoding is out of scope. -/
inductive Command where
  | buttonCancel : Command
  | buttonResume : Command
  | alert (ldw steerRequired : Bool) : Command
  | radar (longActive : Bool) (crzAccelCmd : ℚ) (hold : Bool) : Command
  | accCmd (accAccelCmd : ℚ) (hold resumeFlag : Bool) : Command
  | steering (frame : Nat) (apply_steer : Int) : Command
deriving DecidableEq

/-- The per-cycle outputs: the ordered `can_sends` list, the actuator echo, and
the values of the two stock accel fields (`CS.acc["ACCEL_CMD"]`,
`CS.crz_info["ACCEL_CMD"]`) after the cycle's write-backs. -/
structure Outputs where
  can_sends : List Command
  apply_steer : Int
  ti_apply_steer : Int
  accAccelCmdOut : ℚ
  crzAccelCmdOut : ℚ
deriving DecidableEq

/-- Timer(6.0) at DT_CTRL = 0.01 s per tick. -/
def holdTimerTicks : Nat := 600

/-- Timer(0.5) at DT_CTRL = 0.01 s per tick. -/
def holdDelayTicks : Nat := 50

/-- Timer(0.5) at DT_CTRL = 0.01 s per tick. -/
def resumeTimerTicks : Nat := 50

/-- Python `int(...)` on a rational: truncation toward zero. -/
def pyInt (q : ℚ) : Int := if q < 0 then ⌈q⌉ else ⌊q⌋

/-- Python `round(...)` on a rational, to the nearest integer. -/
def pyRound (q : ℚ) : Int := round q

/-- Modelled from the spec: `FirstOrderFilter.update_alpha`
(common/filter_simple.py is outside src/).  Per §4.3/§7 of the spec it sets the
smoothing coefficient used on the next update, clamped to a valid range; every
call site below passes a value in (0, 1), so the clamp is inert. -/
def update_alpha (f : FilterState) (a : ℚ) : FilterState :=
  { f with alpha := min 1 (max 0 a) }

/-- Modelled from the spec: `FirstOrderFilter.update` (§4.3): the first call
bootstraps the output to the input and marks the filter initialized; later
calls do exponential smoothing with the current coefficient. -/
def filterUpdate (f : FilterState) (inp : ℚ) : FilterState :=
  if f.initialized then
    { f with x := f.alpha * inp + (1 - f.alpha) * f.x }
  else
    { alpha := f.alpha, x := inp, initialized := true }

/-- Clamp an integer into [lo, hi]. -/
def clampI (x lo hi : Int) : Int := max lo (min x hi)

/-- Modelled from the spec: the positive steering limit after driver-override
reduction (§4.2(c)): the allowed magnitude is reduced proportionally when the
driver's torque opposes beyond the override threshold, never exceeding the
configured maximum and never dropping below zero. -/
def allowedSteerMax (driverTorque : Int) (p : SteerParams) : Int :=
  max 0 (min p.steerMax
    (p.steerMax - max 0 ((-driverTorque) - p.overrideThreshold) * p.driverFactor))

/-- Modelled from the spec: the negative steering limit after driver-override
reduction, symmetric to `allowedSteerMax`. -/
def allowedSteerMin (driverTorque : Int) (p : SteerParams) : Int :=
  min 0 (max (-p.steerMax)
    (-p.steerMax + max 0 (driverTorque - p.overrideThreshold) * p.driverFactor))

/-- Modelled from the spec: `apply_driver_steer_torque_limits`
(selfdrive/car/__init__.py is outside src/).  Per §4.2 of the spec the desired
value is clamped so that (a) its magnitude respects the configured maximum,
further reduced on opposing driver torque, and then (b) its change from the
previous applied value respects the configured maximum rate-of-change. -/
def apply_driver_steer_torque_limits (new_steer last driverTorque : Int)
    (p : SteerParams) : Int :=
  clampI (clampI new_steer (allowedSteerMin driverTorque p) (allowedSteerMax driverTorque p))
    (last - p.steerDeltaMax) (last + p.steerDeltaMax)

/-- Modelled from the spec: `apply_ti_steer_torque_limits`, the auxiliary
(torque-interceptor) limiter; per §4.2 it is an independently-configured
limiter with the same contract, so it applies the same rule to its own
parameter set. -/
def apply_ti_steer_torque_limits (new_steer last driverTorque : Int)
    (p : SteerParams) : Int :=
  apply_driver_steer_torque_limits new_steer last driverTorque p

/-- The local `is_resuming()` closure of `update` (carcontroller.py lines 38-39). -/
def isResuming (i : Inputs) : Bool :=
  i.resumeBtn || i.overrideActive || i.gasPressed || i.longCtrlStarting || i.accResume

/-- Lines 43-57 of carcontroller.py: the applied steer and auxiliary applied
steer for this cycle (both zero when lateral control is inactive; the auxiliary
one is computed only when the torque interceptor is fitted and allowed). -/
def steerStep (flags : Flags) (p tp : SteerParams) (s : CState) (i : Inputs) :
    Int × Int :=
  if i.latActive then
    let new_steer := pyRound (i.steer * (p.steerMax : ℚ))
    let apply_steer :=
      apply_driver_steer_torque_limits new_steer s.apply_steer_last i.steeringTorque p
    let ti_apply_steer :=
      if flags.torqueInterceptor && i.ti_lkas_allowed then
        apply_ti_steer_torque_limits (pyRound (i.steer * (tp.steerMax : ℚ)))
          s.ti_apply_steer_last i.steeringTorque tp
      else 0
    (apply_steer, ti_apply_steer)
  else (0, 0)

/-- Lines 115-120 of carcontroller.py (GEN2): the raw acceleration output,
copied from the stock command on a resume request in blended mode with
`CEFramesCounter` at zero, and `accel * 240 + 2000` otherwise. -/
def gen2RawAcc (s : CState) (i : Inputs) : ℚ :=
  if isResuming i && i.blendedACC && decide (s.ceFramesCounter = 0) then
    i.accAccelCmd
  else
    i.accel * 240 + 2000

/-- Result of the GEN2 acceleration blend (lines 115-143). -/
structure BlendResult where
  acc_output : ℚ
  acc_filter : FilterState
  filtered_acc_last : ℚ
  ceFramesCounter : Nat
deriving DecidableEq

/-- Lines 115-143 of carcontroller.py (GEN2): blended-ACC filtering with the
CEFramesCounter ramp, or the raw output when blending is off. -/
def gen2Blend (s : CState) (i : Inputs) : BlendResult :=
  let raw := gen2RawAcc s i
  if i.blendedACC then
    let c := s.ceFramesCounter
    if i.ceStatus then
      let f1 := update_alpha s.acc_filter (((20 : ℚ) - (c : ℚ)) / 500 + 1 / 100)
      let f2 := filterUpdate f1 raw
      let filtered : ℚ := ((pyInt f2.x : Int) : ℚ)
      { acc_output := filtered, acc_filter := f2, filtered_acc_last := filtered,
        ceFramesCounter := if c < 20 then c + 1 else 20 }
    else if 0 < c then
      let f1 := update_alpha s.acc_filter ((c : ℚ) / 500 + 1 / 100)
      let f2 := filterUpdate f1 i.accAccelCmd
      let filtered : ℚ := ((pyInt f2.x : Int) : ℚ)
      { acc_output := filtered, acc_filter := f2, filtered_acc_last := filtered,
        ceFramesCounter := c - 1 }
    else
      { acc_output := i.accAccelCmd, acc_filter := s.acc_filter,
        filtered_acc_last := i.accAccelCmd, ceFramesCounter := c }
  else
    { acc_output := raw, acc_filter := s.acc_filter,
      filtered_acc_last := s.filtered_acc_last, ceFramesCounter := s.ceFramesCounter }

/-- Intermediate result of the generation-specific middle section of `update`. -/
structure MidResult where
  st : CState
  cmds : List Command
  accOut : ℚ
  crzOut : ℚ
deriving DecidableEq

/-- Lines 113-179 of carcontroller.py (GEN2): blend, stock-field write-back, and
the 50 Hz hold/resume ACC command.  `Timer.interval(2)` is modelled from the
spec (ControlsTimer is outside src/) as `frame % 2 == 0`, the 50 Hz sub-tick of
§4.5; timer activity is `elapsed < duration` per §4.1. -/
def gen2Mid (s : CState) (i : Inputs) : MidResult :=
  let b := gen2Blend s i
  let accOut := if i.experimentalLong && i.longActive then b.acc_output else i.accAccelCmd
  let s1 := { s with acc_filter := b.acc_filter, filtered_acc_last := b.filtered_acc_last,
                     ceFramesCounter := b.ceFramesCounter }
  if s.frame % 2 == 0 then
    let holdDelayActive := decide (s.hold_delay_elapsed < holdDelayTicks)
    let resuming := isResuming i
    let hold := i.standstill && !holdDelayActive && !resuming
                  && decide (s.hold_elapsed < holdTimerTicks)
    let doResumeReset := i.standstill && !holdDelayActive && resuming
    let resume_elapsed1 := if doResumeReset then 0 else s.resume_elapsed
    let hold_elapsed1 := if i.standstill then s.hold_elapsed else 0
    let hold_delay_elapsed1 := if i.standstill then s.hold_delay_elapsed else 0
    let resumeFlag := decide (resume_elapsed1 < resumeTimerTicks)
    { st := { s1 with resume_elapsed := resume_elapsed1, hold_elapsed := hold_elapsed1,
                      hold_delay_elapsed := hold_delay_elapsed1 },
      cmds := [Command.accCmd accOut hold resumeFlag],
      accOut := accOut, crzOut := i.crzAccelCmd }
  else
    { st := s1, cmds := [], accOut := accOut, crzOut := i.crzAccelCmd }

/-- Lines 60-75 of carcontroller.py (GEN1): cancel debounce and the 10 Hz cancel
button / 5 Hz resume button.  Returns the new `brake_counter` and the button
commands. -/
def gen1Buttons (s : CState) (i : Inputs) : Nat × List Command :=
  if i.cancel then
    (s.brake_counter + 1,
     if decide (s.frame % 10 = 0)
         && !(i.brakePressed && decide (s.brake_counter + 1 < 7)) then
       [Command.buttonCancel]
     else [])
  else
    (0, if i.resumeBtn && decide (s.frame % 5 = 0) then [Command.buttonResume] else [])

/-- Result of the GEN1 blended-ACC section (lines 92-108). -/
structure Gen1Blend where
  crzOut : ℚ
  acc_filter : FilterState
  filtered_acc_last : ℚ
deriving DecidableEq

/-- Lines 92-108 of carcontroller.py (GEN1): when long control is active and
blended ACC is enabled, filter either the clamped raw output (CEStatus set) or
the stock command, and write the result back into `CS.crz_info["ACCEL_CMD"]`;
otherwise the stock field and the filter are left untouched (the non-blended
`acc_output` local is dead in the GEN1 path). -/
def gen1Blend (s : CState) (i : Inputs) : Gen1Blend :=
  if i.longActive then
    let raw0 := i.accel * 1150
    let raw := max (-1000 : ℚ) (min raw0 1000)
    if i.blendedACC then
      if i.ceStatus then
        let f1 := update_alpha s.acc_filter (|raw - s.filtered_acc_last| / 1000)
        let f2 := filterUpdate f1 raw
        let filtered : ℚ := ((pyInt f2.x : Int) : ℚ)
        { crzOut := filtered, acc_filter := f2, filtered_acc_last := filtered }
      else
        let f1 := update_alpha s.acc_filter (|i.crzAccelCmd - s.filtered_acc_last| / 1000)
        let f2 := filterUpdate f1 i.crzAccelCmd
        let filtered : ℚ := ((pyInt f2.x : Int) : ℚ)
        { crzOut := filtered, acc_filter := f2, filtered_acc_last := filtered }
    else
      { crzOut := i.crzAccelCmd, acc_filter := s.acc_filter,
        filtered_acc_last := s.filtered_acc_last }
  else
    { crzOut := i.crzAccelCmd, acc_filter := s.acc_filter,
      filtered_acc_last := s.filtered_acc_last }

/-- Result of the GEN1 radar-interceptor section. -/
structure RadarResult where
  st : CState
  cmds : List Command
  crzOut : ℚ
deriving DecidableEq

/-- Lines 85-111 of carcontroller.py (GEN1 with the radar interceptor): the hold
flag is `standstill && hold_timer.active()`, the hold timer is reset while
moving, the blend runs, and the radar command goes out every 2nd cycle. -/
def gen1RadarPart (flags : Flags) (s : CState) (i : Inputs) : RadarResult :=
  if flags.radarInterceptor then
    let hold := i.standstill && decide (s.hold_elapsed < holdTimerTicks)
    let hold_elapsed1 := if i.standstill then s.hold_elapsed else 0
    let bl := gen1Blend s i
    let cmds := if s.frame % 2 == 0 then [Command.radar i.longActive bl.crzOut hold] else []
    { st := { s with hold_elapsed := hold_elapsed1, acc_filter := bl.acc_filter,
                     filtered_acc_last := bl.filtered_acc_last },
      cmds := cmds, crzOut := bl.crzOut }
  else
    { st := s, cmds := [], crzOut := i.crzAccelCmd }

/-- Lines 59-111 of carcontroller.py: the whole GEN1 middle section (buttons,
50-cycle HUD alert, radar-interceptor part). -/
def gen1Mid (flags : Flags) (s : CState) (i : Inputs) : MidResult :=
  let bb := gen1Buttons s i
  let alertCmds :=
    if s.frame % 50 == 0 then
      [Command.alert i.ldwAlert (i.steerRequiredAlert && i.lkas_allowed_speed)]
    else []
  let rp := gen1RadarPart flags { s with brake_counter := bb.1 } i
  { st := rp.st, cmds := bb.2 ++ alertCmds ++ rp.cmds,
    accOut := i.accAccelCmd, crzOut := rp.crzOut }

/-- The single global `Timer.tick()` at the end of `update` (line 190): every
timer's elapsed time advances by one DT_CTRL tick.  Modelled from the spec
(§4.1: all timers share one global tick invocation per control cycle). -/
def tickTimers (s : CState) : CState :=
  { s with hold_elapsed := s.hold_elapsed + 1,
           hold_delay_elapsed := s.hold_delay_elapsed + 1,
           resume_elapsed := s.resume_elapsed + 1,
           cancel_delay_elapsed := s.cancel_delay_elapsed + 1 }

/-- `CarController.update` (carcontroller.py lines 36-191): steer limiting, the
generation branch, the always-sent steering command, the frame increment, and
the global timer tick. -/
def update (flags : Flags) (p tp : SteerParams) (s : CState) (i : Inputs) :
    CState × Outputs :=
  let st := steerStep flags p tp s i
  let s1 := { s with apply_steer_last := st.1, ti_apply_steer_last := st.2 }
  let m := if flags.gen1 then gen1Mid flags s1 i else gen2Mid s1 i
  let cmds := m.cmds ++ [Command.steering s.frame st.1]
  let s2 := tickTimers { m.st with frame := m.st.frame + 1 }
  (s2, { can_sends := cmds, apply_steer := st.1, ti_apply_steer := st.2,
         accAccelCmdOut := m.accOut, crzAccelCmdOut := m.crzOut })

/-- `CarController.__init__` (lines 16-33): zeroed steer memory, zero brake
counter and frame, all timers reset, the filter uninitialized (its coefficient
is written before every use), and `CEFramesCounter` put to 0. -/
def initState : CState :=
  { apply_steer_last := 0, ti_apply_steer_last := 0, brake_counter := 0, frame := 0,
    hold_elapsed := 0, hold_delay_elapsed := 0, resume_elapsed := 0,
    cancel_delay_elapsed := 0,
    acc_filter := { alpha := 1, x := 0, initialized := false },
    filtered_acc_last := 0, ceFramesCounter := 0 }

/-- The state reached after `n` cycles from the initial state on the input
sequence `inp`. -/
def runS (flags : Flags) (p tp : SteerParams) (inp : Nat → Inputs) : Nat → CState
  | 0 => initState
  | n + 1 => (update flags p tp (runS flags p tp inp n) (inp n)).1

/-- The outputs emitted on cycle `n`. -/
def outAt (flags : Flags) (p tp : SteerParams) (inp : Nat → Inputs) (n : Nat) :
    Outputs :=
  (update flags p tp (runS flags p tp inp n) (inp n)).2

/-- The (hold, resume) flag pair of the first ACC command in a command list. -/
def accFlagsOf : List Command → Option (Bool × Bool)
  | [] => none
  | Command.accCmd _ h r :: _ => some (h, r)
  | _ :: cs => accFlagsOf cs

/-- The hold flag of the first radar command in a command list. -/
def radarHoldOf : List Command → Option Bool
  | [] => none
  | Command.radar _ _ h :: _ => some h
  | _ :: cs => radarHoldOf cs

/-- A quiescent input snapshot used by the concrete test traces: moving, no
intents, zeroed signals. -/
def baseIn : Inputs :=
  { latActive := false, longActive := false, steer := 0, accel := 0,
    cancel := false, resumeBtn := false, overrideActive := false, gasPressed := false,
    brakePressed := false, standstill := false, steeringTorque := 0,
    longCtrlStarting := false, accResume := false, accAccelCmd := 0, crzAccelCmd := 0,
    ti_lkas_allowed := false, blendedACC := false, experimentalLong := false,
    ceStatus := false, ldwAlert := false, steerRequiredAlert := false,
    lkas_allowed_speed := false }

/-- A plain GEN2 configuration (no interceptors). -/
def flagsB : Flags := { gen1 := false, torqueInterceptor := false, radarInterceptor := false }

/-- A plain GEN1 configuration. -/
def flagsA : Flags := { gen1 := true, torqueInterceptor := false, radarInterceptor := false }

/-- A GEN1 configuration with the radar interceptor fitted. -/
def flagsAR : Flags := { gen1 := true, torqueInterceptor := false, radarInterceptor := true }

/-- Concrete limiter parameters for the test traces. -/
def pW : SteerParams :=
  { steerMax := 800, steerDeltaMax := 10, overrideThreshold := 15, driverFactor := 1 }

/-- Input sequence with lateral control always active and full requested steer. -/
def inpLat : Nat → Inputs := fun _ => { baseIn with latActive := true, steer := 1 }

/-- Input sequence with cancel intent always asserted and the brake never pressed. -/
def inpCancel : Nat → Inputs := fun _ => { baseIn with cancel := true }

/-- Input sequence for the C1 trace: the car moves for 100 cycles, then stands
still; at cycle 148 (and only then) the driver briefly presses the gas. -/
def c1Inputs (n : Nat) : Inputs :=
  if n < 100 then baseIn
  else if n = 148 then { baseIn with standstill := true, gasPressed := true }
  else { baseIn with standstill := true }

/-- GEN2 input with experimental longitudinal control engaged and no blending. -/
def c4In : Inputs :=
  { baseIn with experimentalLong := true, longActive := true, accel := 1 / 2 }

/-- GEN2 input with a resume request (gas pressed) while blending is disabled,
with a stock command distinct from the computed one. -/
def c5In : Inputs :=
  { baseIn with
    gasPressed := true
    longActive := true
    experimentalLong := true
    accAccelCmd := 1000 }

/-- GEN1 radar-path input: vehicle at standstill. -/
def c9In : Inputs := { baseIn with standstill := true }

/-- GEN1 input with long control active and blending disabled. -/
def c10In : Inputs := { baseIn with longActive := true, crzAccelCmd := 500 }

lemma update_apply_steer_last (flags : Flags) (p tp : SteerParams) (s : CState)
    (i : Inputs) :
    (update flags p tp s i).1.apply_steer_last = (steerStep flags p tp s i).1 := by
  obtain ⟨g, t, r⟩ := flags
  cases g <;> cases r <;>
    simp only [update, gen1Mid, gen2Mid, gen1RadarPart, tickTimers, Bool.false_eq_true,
      if_true, if_false, ite_true, ite_false] <;>
    split_ifs <;> rfl

lemma update_ti_apply_steer_last (flags : Flags) (p tp : SteerParams) (s : CState)
    (i : Inputs) :
    (update flags p tp s i).1.ti_apply_steer_last = (steerStep flags p tp s i).2 := by
  obtain ⟨g, t, r⟩ := flags
  cases g <;> cases r <;>
    simp only [update, gen1Mid, gen2Mid, gen1RadarPart, tickTimers, Bool.false_eq_true,
      if_true, if_false, ite_true, ite_false] <;>
    split_ifs <;> rfl

lemma update_frame (flags : Flags) (p tp : SteerParams) (s : CState) (i : Inputs) :
    (update flags p tp s i).1.frame = s.frame + 1 := by
  obtain ⟨g, t, r⟩ := flags
  cases g <;> cases r <;>
    simp only [update, gen1Mid, gen2Mid, gen1RadarPart, tickTimers, Bool.false_eq_true,
      if_true, if_false, ite_true, ite_false] <;>
    split_ifs <;> rfl

lemma runS_frame (flags : Flags) (p tp : SteerParams) (inp : Nat → Inputs) (n : Nat) :
    (runS flags p tp inp n).frame = n := by
  induction n with
  | zero => rfl
  | succ k ih => rw [runS, update_frame, ih]

lemma update_ceFrames (flags : Flags) (p tp : SteerParams) (s : CState) (i : Inputs) :
    (update flags p tp s i).1.ceFramesCounter =
      if flags.gen1 = true then s.ceFramesCounter else (gen2Blend s i).ceFramesCounter := by
  obtain ⟨g, t, r⟩ := flags
  cases g <;> cases r <;>
    simp only [update, gen1Mid, gen2Mid, gen1RadarPart, tickTimers, Bool.false_eq_true,
      if_true, if_false, ite_true, ite_false] <;>
    split_ifs <;> rfl

lemma update_brake_counter (flags : Flags) (p tp : SteerParams) (s : CState)
    (i : Inputs) :
    (update flags p tp s i).1.brake_counter =
      if flags.gen1 = true then (if i.cancel = true then s.brake_counter + 1 else 0)
      else s.brake_counter := by
  obtain ⟨g, t, r⟩ := flags
  cases g <;> cases r <;> cases hc : i.cancel <;>
    simp only [update, gen1Mid, gen2Mid, gen1RadarPart, gen1Buttons, tickTimers, hc,
      Bool.false_eq_true, if_true, if_false, ite_true, ite_false] <;>
    split_ifs <;> rfl

lemma out_apply_steer (flags : Flags) (p tp : SteerParams) (s : CState) (i : Inputs) :
    (update flags p tp s i).2.apply_steer = (steerStep flags p tp s i).1 := rfl

lemma out_ti_apply_steer (flags : Flags) (p tp : SteerParams) (s : CState) (i : Inputs) :
    (update flags p tp s i).2.ti_apply_steer = (steerStep flags p tp s i).2 := rfl

lemma out_accOut (flags : Flags) (p tp : SteerParams) (s : CState) (i : Inputs) :
    (update flags p tp s i).2.accAccelCmdOut =
      if flags.gen1 = true then i.accAccelCmd
      else if i.experimentalLong && i.longActive then (gen2Blend s i).acc_output
      else i.accAccelCmd := by
  obtain ⟨g, t, r⟩ := flags
  cases g <;> cases r <;>
    simp only [update, gen1Mid, gen2Mid, gen1RadarPart, tickTimers, Bool.false_eq_true,
      if_true, if_false, ite_true, ite_false] <;>
    split_ifs <;> rfl

lemma out_crzOut (flags : Flags) (p tp : SteerParams) (s : CState) (i : Inputs) :
    (update flags p tp s i).2.crzAccelCmdOut =
      if flags.gen1 && flags.radarInterceptor then (gen1Blend s i).crzOut
      else i.crzAccelCmd := by
  obtain ⟨g, t, r⟩ := flags
  cases g <;> cases r <;>
    simp only [update, gen1Mid, gen2Mid, gen1RadarPart, tickTimers, Bool.false_eq_true,
      Bool.and_self, Bool.and_false, Bool.false_and, Bool.true_and, Bool.and_true,
      if_true, if_false, ite_true, ite_false] <;>
    first
      | rfl
      | (split_ifs <;> rfl)

lemma adsl_rate (nw last dtq : Int) (p : SteerParams) (hR : 0 ≤ p.steerDeltaMax) :
    |apply_driver_steer_torque_limits nw last dtq p - last| ≤ p.steerDeltaMax := by
  rw [abs_le]
  unfold apply_driver_steer_torque_limits clampI
  omega

lemma adsl_mag (nw last dtq : Int) (p : SteerParams) (hM : 0 ≤ p.steerMax)
    (hR : 0 ≤ p.steerDeltaMax) (hlast : |last| ≤ p.steerMax) :
    |apply_driver_steer_torque_limits nw last dtq p| ≤ p.steerMax := by
  rw [abs_le] at hlast ⊢
  unfold apply_driver_steer_torque_limits clampI allowedSteerMax allowedSteerMin
  generalize max 0 (-dtq - p.overrideThreshold) * p.driverFactor = X
  generalize max 0 (dtq - p.overrideThreshold) * p.driverFactor = Y
  omega

lemma steer_last_bound (flags : Flags) (p tp : SteerParams) (inp : Nat → Inputs)
    (hM : 0 ≤ p.steerMax) (hR : 0 ≤ p.steerDeltaMax)
    (hM2 : 0 ≤ tp.steerMax) (hR2 : 0 ≤ tp.steerDeltaMax) (n : Nat) :
    |(runS flags p tp inp n).apply_steer_last| ≤ p.steerMax ∧
    |(runS flags p tp inp n).ti_apply_steer_last| ≤ tp.steerMax := by
  induction n with
  | zero =>
    constructor <;> simp [runS, initState] <;> assumption
  | succ k ih =>
    rw [runS, update_apply_steer_last, update_ti_apply_steer_last]
    cases hLat : (inp k).latActive
    · simp only [steerStep, hLat, Bool.false_eq_true, ite_false, if_false]
      constructor <;> simpa using (by assumption : (0:Int) ≤ _)
    · cases hTi : (flags.torqueInterceptor && (inp k).ti_lkas_allowed) <;>
        simp only [steerStep, apply_ti_steer_torque_limits, hLat, hTi,
          Bool.false_eq_true, ite_true, ite_false, if_true, if_false]
      · exact ⟨adsl_mag _ _ _ _ hM hR ih.1, by simpa using hM2⟩
      · exact ⟨adsl_mag _ _ _ _ hM hR ih.1, adsl_mag _ _ _ _ hM2 hR2 ih.2⟩

/-- C2: on every cycle where lateral control is active, the applied steering
value moves from the previous applied value by at most the configured maximum
rate-of-change, and its magnitude stays within the configured maximum, on both
the standard path and (when the interceptor is fitted and allowed this cycle)
the auxiliary torque path. -/
theorem C2_steer_rate_and_magnitude (flags : Flags) (p tp : SteerParams)
    (inp : Nat → Inputs) (n : Nat)
    (hM : 0 ≤ p.steerMax) (hR : 0 ≤ p.steerDeltaMax)
    (hM2 : 0 ≤ tp.steerMax) (hR2 : 0 ≤ tp.steerDeltaMax)
    (hact : (inp n).latActive = true) :
    |(outAt flags p tp inp n).apply_steer - (runS flags p tp inp n).apply_steer_last|
        ≤ p.steerDeltaMax ∧
    |(outAt flags p tp inp n).apply_steer| ≤ p.steerMax ∧
    (flags.torqueInterceptor = true → (inp n).ti_lkas_allowed = true →
      |(outAt flags p tp inp n).ti_apply_steer
          - (runS flags p tp inp n).ti_apply_steer_last| ≤ tp.steerDeltaMax ∧
      |(outAt flags p tp inp n).ti_apply_steer| ≤ tp.steerMax) := by
  have hb := steer_last_bound flags p tp inp hM hR hM2 hR2 n
  simp only [outAt, out_apply_steer, out_ti_apply_steer, steerStep, hact, if_true, ite_true]
  refine ⟨adsl_rate _ _ _ _ hR, adsl_mag _ _ _ _ hM hR hb.1, ?_⟩
  intro hti hallow
  simp only [hti, hallow, Bool.and_self, if_true, ite_true, apply_ti_steer_torque_limits]
  exact ⟨adsl_rate _ _ _ _ hR2, adsl_mag _ _ _ _ hM2 hR2 hb.2⟩

/-- Witness for C2 at a concrete configuration and trace. -/
theorem C2_steer_rate_and_magnitude_witness :
    |(outAt flagsB pW pW inpLat 0).apply_steer
        - (runS flagsB pW pW inpLat 0).apply_steer_last| ≤ 10 ∧
    |(outAt flagsB pW pW inpLat 0).apply_steer| ≤ 800 := by
  have h := C2_steer_rate_and_magnitude flagsB pW pW inpLat 0 (by decide) (by decide)
    (by decide) (by decide) (by decide)
  exact ⟨h.1, h.2.1⟩

lemma ceFrames_le (flags : Flags) (p tp : SteerParams) (inp : Nat → Inputs) :
    ∀ n, (runS flags p tp inp n).ceFramesCounter ≤ 20 := by
  intro n
  induction n with
  | zero => simp [runS, initState]
  | succ k ih =>
    rw [runS, update_ceFrames]
    split_ifs
    · exact ih
    · unfold gen2Blend
      split_ifs <;> (try dsimp only) <;> (try split_ifs) <;> (try dsimp only) <;> omega

lemma ceFrames_step (s : CState) (i : Inputs) (h20 : s.ceFramesCounter ≤ 20) :
    ((gen2Blend s i).ceFramesCounter : Int) - (s.ceFramesCounter : Int) ≤ 1 ∧
    -1 ≤ ((gen2Blend s i).ceFramesCounter : Int) - (s.ceFramesCounter : Int) := by
  unfold gen2Blend
  split_ifs <;> (try dsimp only) <;> (try split_ifs) <;> (try dsimp only) <;> omega

/-- C3: from the initial state, the stockTransitionCounter (the CEFramesCounter
key, put to 0 in the constructor) never exceeds 20 — as a natural number it is
also never below 0 — and it changes by at most one between consecutive cycles. -/
theorem C3_ceFramesCounter_bounded (flags : Flags) (p tp : SteerParams)
    (inp : Nat → Inputs) (n : Nat) :
    (runS flags p tp inp n).ceFramesCounter ≤ 20 ∧
    |((runS flags p tp inp (n + 1)).ceFramesCounter : Int)
        - ((runS flags p tp inp n).ceFramesCounter : Int)| ≤ 1 := by
  refine ⟨ceFrames_le flags p tp inp n, ?_⟩
  rw [abs_le, runS, update_ceFrames]
  split_ifs
  · omega
  · have h := ceFrames_step (runS flags p tp inp n) (inp n) (ceFrames_le flags p tp inp n)
    exact ⟨h.2, h.1⟩

/-- C4: in the GEN2 path, the stock acceleration field `CS.acc["ACCEL_CMD"]` is
overwritten with the computed acceleration command exactly when experimental
longitudinal control is enabled and long control is active this cycle;
otherwise it leaves the cycle unchanged. -/
theorem C4_accel_writeback (flags : Flags) (p tp : SteerParams) (s : CState)
    (i : Inputs) (h : flags.gen1 = false) :
    (update flags p tp s i).2.accAccelCmdOut =
      if i.experimentalLong && i.longActive then (gen2Blend s i).acc_output
      else i.accAccelCmd := by
  rw [out_accOut, h]
  simp

/-- Witness for C4: with experimental long control active and blending off, the
field is overwritten with accel * 240 + 2000 = 2120 for accel = 1/2. -/
theorem C4_accel_writeback_witness :
    (update flagsB pW pW initState c4In).2.accAccelCmdOut = 2120 := by
  rw [C4_accel_writeback flagsB pW pW initState c4In rfl]
  norm_num [c4In, baseIn, gen2Blend, gen2RawAcc, isResuming]

/-- C8: whenever lateral control is inactive, both applied steering values are
zero and the stored rate-limit baselines are reset to zero, so each later
inactive cycle also outputs zero and the next engagement starts from a zero
baseline. -/
theorem C8_inactive_steer_zero (flags : Flags) (p tp : SteerParams)
    (inp : Nat → Inputs) (n : Nat) (h : (inp n).latActive = false) :
    (outAt flags p tp inp n).apply_steer = 0 ∧
    (outAt flags p tp inp n).ti_apply_steer = 0 ∧
    (runS flags p tp inp (n + 1)).apply_steer_last = 0 ∧
    (runS flags p tp inp (n + 1)).ti_apply_steer_last = 0 := by
  have hs : steerStep flags p tp (runS flags p tp inp n) (inp n) = (0, 0) := by
    simp [steerStep, h]
  refine ⟨?_, ?_, ?_, ?_⟩
  · simp only [outAt, out_apply_steer, hs]
  · simp only [outAt, out_ti_apply_steer, hs]
  · simp only [runS, update_apply_steer_last, hs]
  · simp only [runS, update_ti_apply_steer_last, hs]

/-- Witness for C8 on the quiescent trace. -/
theorem C8_inactive_steer_zero_witness :
    (outAt flagsB pW pW (fun _ => baseIn) 0).apply_steer = 0 :=
  (C8_inactive_steer_zero flagsB pW pW (fun _ => baseIn) 0 rfl).1

lemma mem_cancel_iff (flags : Flags) (p tp : SteerParams) (s : CState) (i : Inputs) :
    Command.buttonCancel ∈ (update flags p tp s i).2.can_sends ↔
      (flags.gen1 = true ∧ i.cancel = true ∧ s.frame % 10 = 0 ∧
        ¬(i.brakePressed = true ∧ s.brake_counter + 1 < 7)) := by
  obtain ⟨g, t, r⟩ := flags
  cases g
  · simp only [update, gen2Mid, Bool.false_eq_true, if_false, ite_false, false_and,
      iff_false, List.mem_append]
    split_ifs <;> simp
  · cases hc : i.cancel
    · simp only [update, gen1Mid, gen1Buttons, gen1RadarPart, hc, Bool.false_eq_true,
        if_false, ite_false, if_true, ite_true, List.mem_append]
      split_ifs <;> simp
    · cases hb : i.brakePressed <;>
        simp only [update, gen1Mid, gen1Buttons, gen1RadarPart, hc, hb, if_true, ite_true,
          List.mem_append] <;>
        split_ifs <;> simp_all

lemma mem_cancelAt_iff (flags : Flags) (p tp : SteerParams) (inp : Nat → Inputs)
    (n : Nat) :
    Command.buttonCancel ∈ (outAt flags p tp inp n).can_sends ↔
      (flags.gen1 = true ∧ (inp n).cancel = true ∧ n % 10 = 0 ∧
        ¬((inp n).brakePressed = true ∧
            (runS flags p tp inp n).brake_counter + 1 < 7)) := by
  unfold outAt
  rw [mem_cancel_iff, runS_frame]

/-- C6: cancel-button frames are emitted only on cycles whose frame count is a
multiple of 10 — hence at most once every 10 cycles — and never on a cycle where
the brake is pressed while the cancel debounce counter (whose value during the
emission decision is the post-increment `brake_counter`, visible as the counter
stored for the next cycle) is below 7. -/
theorem C6_cancel_emission (flags : Flags) (p tp : SteerParams) (inp : Nat → Inputs)
    (n m : Nat)
    (hn : Command.buttonCancel ∈ (outAt flags p tp inp n).can_sends) :
    ¬((inp n).brakePressed = true ∧ (runS flags p tp inp (n + 1)).brake_counter < 7) ∧
    (Command.buttonCancel ∈ (outAt flags p tp inp m).can_sends → m < n → 10 ≤ n - m) := by
  rw [mem_cancelAt_iff] at hn
  obtain ⟨hg, hc, h10, hbrake⟩ := hn
  constructor
  · rw [runS, update_brake_counter, if_pos hg, if_pos hc]
    exact hbrake
  · intro hm hlt
    rw [mem_cancelAt_iff] at hm
    have h10m := hm.2.2.1
    omega

/-- Witness for C6: on the all-cancel trace, cycle 0 emits a cancel frame and
satisfies the debounce guarantee. -/
theorem C6_cancel_emission_witness :
    ¬((inpCancel 0).brakePressed = true ∧
        (runS flagsA pW pW inpCancel 1).brake_counter < 7) :=
  (C6_cancel_emission flagsA pW pW inpCancel 0 0 (by decide)).1

lemma count_mult10 (f0 : Nat) :
    ((Finset.range 100).filter (fun k => (f0 + k) % 10 = 0)).card = 10 := by
  have himg : (Finset.range 100).filter (fun k => (f0 + k) % 10 = 0) =
      (Finset.range 10).image (fun j => 10 * j + (10 - f0 % 10) % 10) := by
    ext k
    simp only [Finset.mem_filter, Finset.mem_range, Finset.mem_image]
    constructor
    · rintro ⟨hk, hmod⟩
      exact ⟨k / 10, by omega, by omega⟩
    · rintro ⟨j, hj, rfl⟩
      omega
  rw [himg, Finset.card_image_of_injective _ ?_, Finset.card_range]
  intro a b h
  have h2 : 10 * a + (10 - f0 % 10) % 10 = 10 * b + (10 - f0 % 10) % 10 := h
  omega

/-- C7 (amended): with cancel intent held and the brake released over 100
consecutive cycles starting at frame count f0, a cancel frame goes out exactly
on those cycles whose absolute frame count is a multiple of 10, and exactly 10
such frames fall inside the window; their window offsets are 0, 10, ..., 90
precisely when f0 itself is a multiple of 10. -/
theorem C7_cancel_window (flags : Flags) (p tp : SteerParams) (inp : Nat → Inputs)
    (f0 : Nat) (hg : flags.gen1 = true)
    (hwin : ∀ k, k < 100 →
      (inp (f0 + k)).cancel = true ∧ (inp (f0 + k)).brakePressed = false) :
    (∀ k, k < 100 →
      (Command.buttonCancel ∈ (outAt flags p tp inp (f0 + k)).can_sends ↔
        (f0 + k) % 10 = 0)) ∧
    ((Finset.range 100).filter
        (fun k => Command.buttonCancel ∈ (outAt flags p tp inp (f0 + k)).can_sends)).card
      = 10 := by
  have hiff : ∀ k, k < 100 →
      (Command.buttonCancel ∈ (outAt flags p tp inp (f0 + k)).can_sends ↔
        (f0 + k) % 10 = 0) := by
    intro k hk
    rw [mem_cancelAt_iff]
    obtain ⟨hc, hb⟩ := hwin k hk
    simp [hg, hc, hb]
  refine ⟨hiff, ?_⟩
  have heq : (Finset.range 100).filter
      (fun k => Command.buttonCancel ∈ (outAt flags p tp inp (f0 + k)).can_sends) =
      (Finset.range 100).filter (fun k => (f0 + k) % 10 = 0) := by
    ext k
    simp only [Finset.mem_filter, Finset.mem_range]
    constructor
    · rintro ⟨hk, hmem⟩
      exact ⟨hk, (hiff k hk).mp hmem⟩
    · rintro ⟨hk, hmod⟩
      exact ⟨hk, (hiff k hk).mpr hmod⟩
  rw [heq, count_mult10 f0]

/-- Witness for C7 at a concrete window start. -/
theorem C7_cancel_window_witness :
    ((Finset.range 100).filter
        (fun k => Command.buttonCancel ∈ (outAt flagsA pW pW inpCancel (0 + k)).can_sends)).card
      = 10 :=
  (C7_cancel_window flagsA pW pW inpCancel 0 rfl (fun _ _ => ⟨rfl, rfl⟩)).2

/-- Counterexample to C7 as stated: with cancel intent held and the brake
released, a window that starts at frame count 1 emits no cancel frame at its
zero-indexed offset 0 (absolute frame 1), although the claim requires an
emission there for every starting frame count. -/
theorem C7_counterexample :
    (inpCancel 1).cancel = true ∧ (inpCancel 1).brakePressed = false ∧
    Command.buttonCancel ∉ (outAt flagsA pW pW inpCancel 1).can_sends := by
  refine ⟨rfl, rfl, ?_⟩
  decide

/-- Counterexample to C5 as stated: a resume condition (gas pressed) with the
counter at zero but blended-ACC disabled still yields accel * 240 + 2000 = 2000
rather than the stock command 1000, observable in the written-back field. -/
theorem C5_counterexample :
    isResuming c5In = true ∧ initState.ceFramesCounter = 0 ∧
    c5In.accAccelCmd = 1000 ∧
    (update flagsB pW pW initState c5In).2.accAccelCmdOut = 2000 := by
  refine ⟨rfl, rfl, rfl, ?_⟩
  rw [out_accOut]
  norm_num [flagsB, gen2Blend, gen2RawAcc, isResuming, c5In, baseIn]

/-- C5 (amended): the GEN2 raw acceleration output equals accel * 240 + 2000
except when a resume condition is requested while blended-ACC mode is enabled
and the stock-control-inactive run counter is exactly zero, in which case it
copies the current stock command; with blending disabled and experimental long
control active the formula value is what reaches the outgoing stock field. -/
theorem C5_raw_acc (flags : Flags) (p tp : SteerParams) (s : CState) (i : Inputs)
    (hg : flags.gen1 = false) :
    gen2RawAcc s i =
      (if isResuming i = true ∧ i.blendedACC = true ∧ s.ceFramesCounter = 0
       then i.accAccelCmd else i.accel * 240 + 2000) ∧
    (i.blendedACC = false → (i.experimentalLong && i.longActive) = true →
      (update flags p tp s i).2.accAccelCmdOut = i.accel * 240 + 2000) := by
  have hraw : gen2RawAcc s i =
      (if isResuming i = true ∧ i.blendedACC = true ∧ s.ceFramesCounter = 0
       then i.accAccelCmd else i.accel * 240 + 2000) := by
    unfold gen2RawAcc
    split_ifs <;> simp_all
  refine ⟨hraw, fun hb hel => ?_⟩
  rw [out_accOut, hg]
  simp only [Bool.false_eq_true, if_false, ite_false, hel, if_true, ite_true]
  unfold gen2Blend
  rw [if_neg (by simp [hb]), hraw, if_neg (by simp [hb])]

/-- Witness for the amended C5. -/
theorem C5_raw_acc_witness :
    (update flagsB pW pW initState c4In).2.accAccelCmdOut = c4In.accel * 240 + 2000 := by
  have h := C5_raw_acc flagsB pW pW initState c4In rfl
  exact h.2 rfl rfl

lemma radarHold_eq (flags : Flags) (p tp : SteerParams) (s : CState) (i : Inputs)
    (hg : flags.gen1 = true) (hr : flags.radarInterceptor = true) (h2 : s.frame % 2 = 0) :
    radarHoldOf (update flags p tp s i).2.can_sends =
      some (i.standstill && decide (s.hold_elapsed < holdTimerTicks)) := by
  obtain ⟨g, t, r⟩ := flags
  obtain rfl : g = true := hg
  obtain rfl : r = true := hr
  have h2b : (s.frame % 2 == 0) = true := by simp [h2]
  simp only [update, gen1Mid, gen1Buttons, gen1RadarPart, h2b, if_true, ite_true]
  split_ifs <;> simp [radarHoldOf]

lemma update_hold_elapsed_moving (flags : Flags) (p tp : SteerParams) (s : CState)
    (i : Inputs) (hg : flags.gen1 = true) (hr : flags.radarInterceptor = true)
    (hs : i.standstill = false) :
    (update flags p tp s i).1.hold_elapsed = 1 := by
  obtain ⟨g, t, r⟩ := flags
  obtain rfl : g = true := hg
  obtain rfl : r = true := hr
  simp only [update, gen1Mid, gen1Buttons, gen1RadarPart, tickTimers, hs,
    Bool.false_eq_true, if_false, ite_false, if_true, ite_true]

/-- C9: in the GEN1 radar path the hold flag handed to the radar command equals
standstill && hold-timer-active — an expression consulting neither the
hold-delay window nor any resume condition — and whenever the vehicle is moving
the hold timer is reset during the cycle (elapsed is exactly the one
end-of-cycle global tick afterwards) and the emitted hold flag is false. -/
theorem C9_radar_hold (flags : Flags) (p tp : SteerParams) (s : CState) (i : Inputs)
    (hg : flags.gen1 = true) (hr : flags.radarInterceptor = true) :
    (s.frame % 2 = 0 →
      radarHoldOf (update flags p tp s i).2.can_sends =
        some (i.standstill && decide (s.hold_elapsed < holdTimerTicks))) ∧
    (i.standstill = false →
      (update flags p tp s i).1.hold_elapsed = 1 ∧
      (s.frame % 2 = 0 →
        radarHoldOf (update flags p tp s i).2.can_sends = some false)) := by
  refine ⟨fun h2 => radarHold_eq flags p tp s i hg hr h2,
    fun hs => ⟨update_hold_elapsed_moving flags p tp s i hg hr hs, fun h2 => ?_⟩⟩
  rw [radarHold_eq flags p tp s i hg hr h2, hs]
  simp

/-- Witness for C9 at a concrete standstill cycle. -/
theorem C9_radar_hold_witness :
    radarHoldOf (update flagsAR pW pW initState c9In).2.can_sends =
      some (c9In.standstill && decide (initState.hold_elapsed < holdTimerTicks)) :=
  (C9_radar_hold flagsAR pW pW initState c9In rfl rfl).1 rfl

lemma gen1Blend_accel (s : CState) (i : Inputs) (a : ℚ) (hb : i.blendedACC = false) :
    gen1Blend s { i with accel := a } = gen1Blend s i := by
  unfold gen1Blend
  cases hl : i.longActive <;> simp [hl, hb]

lemma gen1Mid_accel (flags : Flags) (s : CState) (i : Inputs) (a : ℚ)
    (hb : i.blendedACC = false) :
    gen1Mid flags s { i with accel := a } = gen1Mid flags s i := by
  have hbl : ∀ s' : CState, gen1Blend s' { i with accel := a } = gen1Blend s' i :=
    fun s' => gen1Blend_accel s' i a hb
  unfold gen1Mid gen1RadarPart gen1Buttons
  simp only [hbl]

/-- C10: in GEN1, the stock field `CS.crz_info["ACCEL_CMD"]` is rewritten only
on cycles where long control is active and blended-ACC mode is enabled — on
every other cycle it passes through unchanged — and with blending disabled the
whole cycle result (state, command list and write-backs) is independent of the
planner acceleration, so the computed raw output is invisible to the encoder. -/
theorem C10_crz_writeback (flags : Flags) (p tp : SteerParams) (s : CState)
    (i : Inputs) (hg : flags.gen1 = true) :
    ((i.longActive && i.blendedACC) = false →
      (update flags p tp s i).2.crzAccelCmdOut = i.crzAccelCmd) ∧
    (i.blendedACC = false → ∀ a : ℚ,
      update flags p tp s { i with accel := a } = update flags p tp s i) := by
  constructor
  · intro hlb
    rw [out_crzOut]
    split_ifs with h
    · unfold gen1Blend
      cases hl : i.longActive <;> cases hbl : i.blendedACC <;> simp_all
    · rfl
  · intro hb a
    simp only [update, hg, eq_self_iff_true, if_true, ite_true]
    rw [show steerStep flags p tp s { i with accel := a } = steerStep flags p tp s i
          from rfl]
    rw [gen1Mid_accel flags _ i a hb]

/-- Witness for C10 in a cycle with long control active and blending disabled. -/
theorem C10_crz_writeback_witness :
    (update flagsAR pW pW initState c10In).2.crzAccelCmdOut = 500 ∧
    update flagsAR pW pW initState { c10In with accel := 3 } =
      update flagsAR pW pW initState c10In := by
  have h := C10_crz_writeback flagsAR pW pW initState c10In rfl
  exact ⟨h.1 rfl, h.2 rfl 3⟩

set_option maxRecDepth 10000 in
/-- Counterexample to C1 as stated: on a reachable GEN2 trace — drive for 100
cycles, stand still, tap the gas at cycle 148 once the hold-delay window has
lapsed, release it — the 50 Hz ACC frame of cycle 150 carries hold = true and
resume = true simultaneously (the resume timer is still inside its 0.5 s
window while the hold branch is re-entered). -/
theorem C1_counterexample :
    accFlagsOf (outAt flagsB pW pW c1Inputs 150).can_sends = some (true, true) := by
  decide

/-- C1 (amended): in a 50 Hz tick the hold flag only excludes a currently
requested resume condition: hold = true forces is_resuming() = false for that
tick, and the emitted resume flag then reflects exactly the residual 0.5 s
resume-timer window, so hold and resume can both be true within 0.5 s after a
resume condition ends; both may be false. -/
theorem C1_hold_excludes_resume (flags : Flags) (p tp : SteerParams) (s : CState)
    (i : Inputs) (rflag : Bool)
    (hg : flags.gen1 = false)
    (hmem : accFlagsOf (update flags p tp s i).2.can_sends = some (true, rflag)) :
    isResuming i = false ∧ rflag = decide (s.resume_elapsed < resumeTimerTicks) := by
  obtain ⟨g, t, r⟩ := flags
  obtain rfl : g = false := hg
  simp only [update, gen2Mid, Bool.false_eq_true, if_false, ite_false] at hmem
  cases h2 : (s.frame % 2 == 0)
  · simp only [h2, Bool.false_eq_true, if_false, ite_false, List.nil_append,
      accFlagsOf] at hmem
    exact Option.noConfusion hmem
  · simp only [h2, eq_self_iff_true, if_true, ite_true, List.cons_append,
      List.nil_append, accFlagsOf, Option.some.injEq, Prod.mk.injEq] at hmem
    obtain ⟨hh, hr⟩ := hmem
    have hres : isResuming i = false := by
      by_contra hcon
      rw [Bool.not_eq_false] at hcon
      simp [hcon] at hh
    refine ⟨hres, ?_⟩
    rw [← hr]
    simp [hres]

set_option maxRecDepth 10000 in
/-- Witness for the amended C1 on the counterexample trace: hold is asserted at
cycle 150, no resume condition is requested there, and the resume flag equals
the residual resume-timer test. -/
theorem C1_hold_excludes_resume_witness :
    isResuming (c1Inputs 150) = false ∧
    true = decide ((runS flagsB pW pW c1Inputs 150).resume_elapsed < resumeTimerTicks) :=
  C1_hold_excludes_resume flagsB pW pW (runS flagsB pW pW c1Inputs 150) (c1Inputs 150)
    true rfl (by decide)

end MazdaCC
